import Mathlib

/-!
Shallow embedding of the authentication backend (controllers/Auth.js,
controllers/oAuthController.js, middlewares/userAuth.js, models/UserModel.js).

The user store is a list of records; `findOne` returns the first record whose
`email` field equals the query (emails are unique by schema), `updateOne`
applies a field update to the first matching record. Timestamps are `Nat`
milliseconds (`Date.now()`). Missing request fields follow JS truthiness for
strings: a missing field is the empty string. External collaborators are
parameters: bcrypt hashing/compare, the generated random UUID tokens, the
Mongo object id of a new record, and (for OAuth) the identity-provider
token-exchange and profile-fetch calls.
-/

set_option autoImplicit false

namespace AuthBackend

/-- User record per models/UserModel.js: schema fields with their defaults. -/
structure UserRecord where
  _id : String
  email : String
  name : String
  password : String
  verifyToken : String
  verifyTokenExpireAt : Nat
  isAccountVerified : Bool
  resetToken : String
  resetTokenExpireAt : Nat
  deriving Repr, DecidableEq

/-- JWT payload: `jwt.sign({id: user._id}, ...)` in Auth.js sets only `id`;
`jwt.sign({email, name}, ...)` in oAuthController.js sets only `email`/`name`. -/
structure JwtClaims where
  id : Option String
  email : Option String
  name : Option String
  deriving Repr, DecidableEq

/-- A signed session token: the payload plus the signing secret
(signature validity is modelled as equality of secrets). -/
structure SessionToken where
  claims : JwtClaims
  secret : String
  deriving Repr, DecidableEq

/-- `jwt.sign(payload, secret)`. -/
def jwtSign (claims : JwtClaims) (secret : String) : SessionToken :=
  { claims := claims, secret := secret }

/-- `jwt.verify(token, secret)`: returns the decoded payload when the
signature checks out, `none` when verification throws. -/
def jwtVerify (tok : SessionToken) (secret : String) : Option JwtClaims :=
  if tok.secret == secret then some tok.claims else none

/-- A flow's JSON response plus the optional `res.cookie('token', ...)`
directive. A response with no `message` field is modelled with `message`
equal to the empty string. -/
structure Response where
  success : Bool
  message : String
  setCookie : Option SessionToken
  deriving Repr, DecidableEq

/-- A `{success: false, message}` response (no cookie directive). -/
def failRes (message : String) : Response :=
  { success := false, message := message, setCookie := none }

/-- `UserModel.findOne({email})`: first stored record with that email. -/
def findOne (db : List UserRecord) (email : String) : Option UserRecord :=
  db.find? (fun u => u.email == email)

/-- `UserModel.updateOne({email}, fields)` (also `user.save()` after mutating
the document returned by `findOne`): update the first record with that email. -/
def updateOne (db : List UserRecord) (email : String)
    (f : UserRecord → UserRecord) : List UserRecord :=
  match db with
  | [] => []
  | u :: rest =>
    if u.email == email then f u :: rest else u :: updateOne rest email f

/-- Request body of POST /register. -/
structure RegisterReq where
  name : String
  email : String
  password : String
  deriving Repr, DecidableEq

/-- `register` (controllers/Auth.js): validate fields, reject duplicate email,
hash the password, create the record with a 15-minute verification token,
best-effort email (ignored). `hash` is bcrypt with 10 rounds, `newId` the
Mongo id of the new document, `token` the `crypto.randomUUID()` value. -/
def register (hash : String → String) (newId token : String) (now : Nat)
    (db : List UserRecord) (req : RegisterReq) : Response × List UserRecord :=
  if req.name == "" || req.email == "" || req.password == "" then
    (failRes "Missing Details", db)
  else
    match findOne db req.email with
    | some _ => (failRes "User already exists", db)
    | none =>
      let user : UserRecord :=
        { _id := newId
          name := req.name
          email := req.email
          password := hash req.password
          verifyToken := token
          verifyTokenExpireAt := now + 1000 * 60 * 15
          isAccountVerified := false
          resetToken := ""
          resetTokenExpireAt := 0 }
      ({ success := true, message := "", setCookie := none }, db ++ [user])

/-- Request body of POST /account-verify. -/
structure VerifyAccountReq where
  token : String
  email : String
  deriving Repr, DecidableEq

/-- `verifyAccount` (controllers/Auth.js): validate, find user, compare the
stored `verifyToken` with the request token, check expiry
(`user.verifyTokenExpireAt < Date.now()`), then mark verified, clear the
token and its expiry, and issue a 7-day session cookie `{id: user._id}`. -/
def verifyAccount (secret : String) (now : Nat)
    (db : List UserRecord) (req : VerifyAccountReq) : Response × List UserRecord :=
  if req.token == "" || req.email == "" then
    (failRes "Missing details", db)
  else
    match findOne db req.email with
    | none => (failRes "User not found", db)
    | some user =>
      if user.verifyToken != req.token then
        (failRes "Link in not valid", db)
      else if user.verifyTokenExpireAt < now then
        (failRes "Link is Expired", db)
      else
        let db' := updateOne db req.email (fun u =>
          { u with isAccountVerified := true, verifyToken := "", verifyTokenExpireAt := 0 })
        ({ success := true
           message := "Account verified"
           setCookie := some (jwtSign { id := some user._id, email := none, name := none } secret) },
         db')

/-- `Signin` (controllers/Auth.js): validate, find user by email, compare the
password against the stored bcrypt hash with `bcrypt.compare` (the library's
compare, passed in as `compare`), and on success issue a 7-day session
cookie `{id: user._id}`. The store is never written. -/
def Signin (compare : String → String → Bool) (secret : String)
    (db : List UserRecord) (email password : String) : Response :=
  if email == "" || password == "" then
    failRes "Email and password are required"
  else
    match findOne db email with
    | none => failRes "Invalid email"
    | some user =>
      if !compare password user.password then
        failRes "Incorrect password"
      else
        { success := true
          message := ""
          setCookie := some (jwtSign { id := some user._id, email := none, name := none } secret) }

/-- `sendResetToken` (controllers/Auth.js): validate email, find user,
overwrite `resetToken`/`resetTokenExpireAt` with a fresh 15-minute token,
best-effort email (ignored). `newToken` is the `crypto.randomUUID()` value. -/
def sendResetToken (newToken : String) (now : Nat)
    (db : List UserRecord) (email : String) : Response × List UserRecord :=
  if email == "" then
    (failRes "Email required", db)
  else
    match findOne db email with
    | none => (failRes "User not found", db)
    | some _ =>
      let db' := updateOne db email (fun u =>
        { u with resetToken := newToken, resetTokenExpireAt := now + 1000 * 60 * 15 })
      ({ success := true, message := "Reset link sent to email", setCookie := none }, db')

/-- `verifyResetToken` (controllers/Auth.js): validate, find user, reject when
the stored token is empty or differs from the request token, check expiry,
then clear the token and its expiry (one-time use). -/
def verifyResetToken (now : Nat) (db : List UserRecord)
    (email resetToken : String) : Response × List UserRecord :=
  if email == "" || resetToken == "" then
    (failRes "Missing Details.", db)
  else
    match findOne db email with
    | none => (failRes "User not found.", db)
    | some user =>
      if user.resetToken == "" || user.resetToken != resetToken then
        (failRes "Invalid Link.", db)
      else if user.resetTokenExpireAt < now then
        (failRes "Link expired", db)
      else
        let db' := updateOne db email (fun u =>
          { u with resetToken := "", resetTokenExpireAt := 0 })
        ({ success := true, message := "Enter new password", setCookie := none }, db')

/-- `resetPassword` (controllers/Auth.js): validate the new password, find
user, re-hash and store the new password. -/
def resetPassword (hash : String → String) (db : List UserRecord)
    (email newPassword : String) : Response × List UserRecord :=
  if newPassword == "" then
    (failRes "New password is required.", db)
  else
    match findOne db email with
    | none => (failRes "User not found.", db)
    | some _ =>
      let db' := updateOne db email (fun u => { u with password := hash newPassword })
      ({ success := true, message := "Password has been reset successfully.", setCookie := none }, db')

/-- Profile returned by the identity provider's userinfo endpoint. -/
structure OAuthProfile where
  email : String
  name : String
  deriving Repr, DecidableEq

/-- `verifyToken` (controllers/oAuthController.js), the OAuth callback:
exchange the code for an access token, fetch the profile, look up the user by
email; if absent create a pre-verified record with empty password, else reuse
the record untouched; either way sign `{email, name}` (no `id` claim) and set
the cookie. The two upstream axios calls are parameters; the handler has no
try/catch, so an upstream failure propagates out of the flow (`Except.error`)
instead of producing a response. -/
def completeLogin (secret : String)
    (tokenExchange : Except String String)
    (fetchProfile : String → Except String OAuthProfile)
    (db : List UserRecord) (newId : String) :
    Except String (Response × List UserRecord) :=
  match tokenExchange with
  | .error e => .error e
  | .ok accessToken =>
    match fetchProfile accessToken with
    | .error e => .error e
    | .ok profile =>
      let token := jwtSign { id := none, email := some profile.email, name := some profile.name } secret
      match findOne db profile.email with
      | none =>
        let newUser : UserRecord :=
          { _id := newId
            email := profile.email
            name := profile.name
            password := ""
            verifyToken := ""
            verifyTokenExpireAt := 0
            isAccountVerified := true
            resetToken := ""
            resetTokenExpireAt := 0 }
        .ok ({ success := true, message := "User registered successfully", setCookie := some token },
             db ++ [newUser])
      | some _ =>
        .ok ({ success := true, message := "User logged in successfully", setCookie := some token },
             db)

/-- Outcome of the `userAuth` middleware: either proceed to the handler with
`req.body.userId` set, or respond with a `{success:false}` rejection. -/
inductive AuthOutcome where
  | next (userId : String)
  | reject (message : String)
  deriving Repr, DecidableEq

/-- `userAuth` (middlewares/userAuth.js): read the `token` cookie, verify it,
and require a truthy `id` claim before calling `next()`; otherwise reject
with "Not Authorized Login Again." (or the verification error's message). -/
def userAuth (cookieToken : Option SessionToken) (secret : String) : AuthOutcome :=
  match cookieToken with
  | none => .reject "Not Authorized Login Again."
  | some tok =>
    match jwtVerify tok secret with
    | none => .reject "invalid signature"
    | some decoded =>
      match decoded.id with
      | none => .reject "Not Authorized Login Again."
      | some uid =>
        if uid == "" then .reject "Not Authorized Login Again." else .next uid

/-! ### Store lemmas -/

/-- `updateOne` on the first record `findOne` returns: the lookup afterwards
sees the updated record (the updates in Auth.js never change `email`). -/
theorem findOne_updateOne_eq (email : String) (f : UserRecord → UserRecord)
    (hf : ∀ v, (f v).email = v.email) :
    ∀ (db : List UserRecord) (u : UserRecord), findOne db email = some u →
      findOne (updateOne db email f) email = some (f u) := by
  intro db
  induction db with
  | nil => intro u h; simp [findOne] at h
  | cons v rest ih =>
    intro u h
    by_cases hv : (v.email == email) = true
    · simp only [findOne, List.find?, hv] at h
      injection h with h
      subst h
      have hfu : ((f v).email == email) = true := by rw [hf]; exact hv
      simp [updateOne, hv, findOne, List.find?, hfu]
    · have hv' : (v.email == email) = false := by simpa using hv
      simp only [findOne, List.find?, hv'] at h
      simpa [updateOne, hv', findOne, List.find?] using ih u h

/-- Appending a fresh record with the looked-up email makes `findOne` return it. -/
theorem findOne_append_single (db : List UserRecord) (email : String)
    (u : UserRecord) (h : findOne db email = none) (hu : u.email = email) :
    findOne (db ++ [u]) email = some u := by
  induction db with
  | nil => simp [findOne, List.find?, hu]
  | cons v rest ih =>
    by_cases hv : (v.email == email) = true
    · simp only [findOne, List.find?, hv] at h
      exact absurd h (by simp)
    · have hv' : (v.email == email) = false := by simpa using hv
      simp only [findOne, List.find?, hv'] at h
      simpa [findOne, List.find?, hv'] using ih h

/-- When no stored record has the email, appending one gives exactly one
record with that email. -/
theorem filter_email_append_single (db : List UserRecord) (email : String)
    (u : UserRecord) (h : findOne db email = none) (hu : u.email = email) :
    (db ++ [u]).filter (fun v => v.email == email) = [u] := by
  have hdb : db.filter (fun v => v.email == email) = [] :=
    List.filter_eq_nil_iff.mpr (List.find?_eq_none.mp h)
  rw [List.filter_append, hdb, List.nil_append]
  simp [List.filter, hu]

/-- A concrete stored record used to instantiate theorems on explicit inputs. -/
def sampleUser : UserRecord :=
  { _id := "64b0c1"
    email := "al@x.com"
    name := "Al"
    password := "hashed-pw1"
    verifyToken := "vtok-1"
    verifyTokenExpireAt := 2000
    isAccountVerified := false
    resetToken := "rtok-1"
    resetTokenExpireAt := 3000 }

/-- C1: Single-use tokens: when a VerifyAccount (resp. VerifyResetToken)
consumption succeeds, the resulting store holds the record with the token and
its expiry cleared (and, for verify, the verified flag set) in the same
update, and repeating the exact same request against the resulting store
yields the "Link in not valid" (INVALID_TOKEN) resp. "Invalid Link."
(INVALID_LINK) failure with the store unchanged. -/
theorem C1_single_use_tokens (secret : String) (now now' : Nat)
    (db : List UserRecord) (req : VerifyAccountReq) (email resetTok : String) :
    ((verifyAccount secret now db req).1.success = true →
      (∃ u, findOne (verifyAccount secret now db req).2 req.email = some u ∧
        u.verifyToken = "" ∧ u.verifyTokenExpireAt = 0 ∧ u.isAccountVerified = true) ∧
      verifyAccount secret now' (verifyAccount secret now db req).2 req =
        (failRes "Link in not valid", (verifyAccount secret now db req).2))
    ∧ ((verifyResetToken now db email resetTok).1.success = true →
      (∃ u, findOne (verifyResetToken now db email resetTok).2 email = some u ∧
        u.resetToken = "" ∧ u.resetTokenExpireAt = 0) ∧
      verifyResetToken now' (verifyResetToken now db email resetTok).2 email resetTok =
        (failRes "Invalid Link.", (verifyResetToken now db email resetTok).2)) := by
  constructor
  · intro hs
    by_cases ht : req.token = ""
    · simp [verifyAccount, ht, failRes] at hs
    · by_cases he : req.email = ""
      · simp [verifyAccount, he, failRes] at hs
      · cases hfind : findOne db req.email with
        | none => simp [verifyAccount, ht, he, hfind, failRes] at hs
        | some user =>
          by_cases hm : user.verifyToken = req.token
          · by_cases hexp : user.verifyTokenExpireAt < now
            · simp [verifyAccount, ht, he, hfind, hm, hexp, failRes] at hs
            · have hdb2 : (verifyAccount secret now db req).2 =
                  updateOne db req.email (fun v =>
                    { v with isAccountVerified := true, verifyToken := "", verifyTokenExpireAt := 0 }) := by
                simp [verifyAccount, ht, he, hfind, hm, hexp]
              have hfind2 : findOne (updateOne db req.email (fun v =>
                    { v with isAccountVerified := true, verifyToken := "", verifyTokenExpireAt := 0 })) req.email =
                  some { user with isAccountVerified := true, verifyToken := "", verifyTokenExpireAt := 0 } :=
                findOne_updateOne_eq req.email (fun v =>
                  { v with isAccountVerified := true, verifyToken := "", verifyTokenExpireAt := 0 })
                  (fun v => rfl) db user hfind
              refine ⟨⟨_, by rw [hdb2]; exact hfind2, rfl, rfl, rfl⟩, ?_⟩
              have ht' : ¬(("" : String) = req.token) := fun hh => ht hh.symm
              rw [hdb2]
              simp [verifyAccount, ht, he, hfind2, ht', failRes]
          · simp [verifyAccount, ht, he, hfind, hm, failRes] at hs
  · intro hs
    by_cases he : email = ""
    · simp [verifyResetToken, he, failRes] at hs
    · by_cases ht : resetTok = ""
      · simp [verifyResetToken, ht, failRes] at hs
      · cases hfind : findOne db email with
        | none => simp [verifyResetToken, he, ht, hfind, failRes] at hs
        | some user =>
          by_cases hm : user.resetToken = resetTok
          · by_cases hz : user.resetToken = ""
            · simp [verifyResetToken, he, ht, hfind, hz, failRes] at hs
            · by_cases hexp : user.resetTokenExpireAt < now
              · simp [verifyResetToken, he, ht, hfind, hm, hz, hexp, failRes] at hs
              · have hdb2 : (verifyResetToken now db email resetTok).2 =
                    updateOne db email (fun v =>
                      { v with resetToken := "", resetTokenExpireAt := 0 }) := by
                  simp [verifyResetToken, he, ht, hfind, hm, hz, hexp]
                have hfind2 : findOne (updateOne db email (fun v =>
                      { v with resetToken := "", resetTokenExpireAt := 0 })) email =
                    some { user with resetToken := "", resetTokenExpireAt := 0 } :=
                  findOne_updateOne_eq email (fun v =>
                    { v with resetToken := "", resetTokenExpireAt := 0 }) (fun v => rfl) db user hfind
                refine ⟨⟨_, by rw [hdb2]; exact hfind2, rfl, rfl⟩, ?_⟩
                rw [hdb2]
                simp [verifyResetToken, he, ht, hfind2, failRes]
          · simp [verifyResetToken, he, ht, hfind, hm, failRes] at hs

/-- C1 witness: on a concrete store with a pending verification token and a
pending reset token, both consumptions succeed at time 1000, and repeating
each request afterwards fails with the invalid-token messages. -/
theorem C1_single_use_tokens_witness :
    ((verifyAccount "s" 1000 [sampleUser] { token := "vtok-1", email := "al@x.com" }).1.success = true ∧
      (∃ u, findOne (verifyAccount "s" 1000 [sampleUser] { token := "vtok-1", email := "al@x.com" }).2 "al@x.com" = some u ∧
        u.verifyToken = "" ∧ u.verifyTokenExpireAt = 0 ∧ u.isAccountVerified = true) ∧
      verifyAccount "s" 1500 (verifyAccount "s" 1000 [sampleUser] { token := "vtok-1", email := "al@x.com" }).2
          { token := "vtok-1", email := "al@x.com" } =
        (failRes "Link in not valid", (verifyAccount "s" 1000 [sampleUser] { token := "vtok-1", email := "al@x.com" }).2))
    ∧ ((verifyResetToken 1000 [sampleUser] "al@x.com" "rtok-1").1.success = true ∧
      (∃ u, findOne (verifyResetToken 1000 [sampleUser] "al@x.com" "rtok-1").2 "al@x.com" = some u ∧
        u.resetToken = "" ∧ u.resetTokenExpireAt = 0) ∧
      verifyResetToken 1500 (verifyResetToken 1000 [sampleUser] "al@x.com" "rtok-1").2 "al@x.com" "rtok-1" =
        (failRes "Invalid Link.", (verifyResetToken 1000 [sampleUser] "al@x.com" "rtok-1").2)) := by
  have h := C1_single_use_tokens "s" 1000 1500 [sampleUser]
    { token := "vtok-1", email := "al@x.com" } "al@x.com" "rtok-1"
  exact ⟨⟨by decide, h.1 (by decide)⟩, ⟨by decide, h.2 (by decide)⟩⟩

/-- C2: Expiry boundary: a VerifyAccount (resp. VerifyResetToken) consumption
is rejected whenever `now > expiresAt` of the record's token, whatever the
other fields hold, and is accepted at `now = expiresAt - 1` when the token
matches (the expiry test compares only `expiresAt` with `now`). -/
theorem C2_expiry_boundary (secret : String) (now : Nat) (db : List UserRecord)
    (req : VerifyAccountReq) (u : UserRecord) (email resetTok : String) (w : UserRecord) :
    (findOne db req.email = some u → u.verifyTokenExpireAt < now →
      (verifyAccount secret now db req).1.success = false)
    ∧ (findOne db req.email = some u → req.token ≠ "" → req.email ≠ "" →
      u.verifyToken = req.token →
      (verifyAccount secret (u.verifyTokenExpireAt - 1) db req).1.success = true)
    ∧ (findOne db email = some w → w.resetTokenExpireAt < now →
      (verifyResetToken now db email resetTok).1.success = false)
    ∧ (findOne db email = some w → email ≠ "" → resetTok ≠ "" →
      w.resetToken = resetTok →
      (verifyResetToken (w.resetTokenExpireAt - 1) db email resetTok).1.success = true) := by
  refine ⟨?_, ?_, ?_, ?_⟩
  · intro hfind hexp
    by_cases ht : req.token = ""
    · simp [verifyAccount, ht, failRes]
    · by_cases he : req.email = ""
      · simp [verifyAccount, ht, he, failRes]
      · by_cases hm : u.verifyToken = req.token
        · simp [verifyAccount, ht, he, hfind, hm, hexp, failRes]
        · simp [verifyAccount, ht, he, hfind, hm, failRes]
  · intro hfind ht he hm
    have hnl : ¬ (u.verifyTokenExpireAt < u.verifyTokenExpireAt - 1) := by omega
    simp [verifyAccount, ht, he, hfind, hm, hnl]
  · intro hfind hexp
    by_cases hv : email = ""
    · simp [verifyResetToken, hv, failRes]
    · by_cases htk : resetTok = ""
      · simp [verifyResetToken, hv, htk, failRes]
      · by_cases hz : w.resetToken = ""
        · simp [verifyResetToken, hv, htk, hfind, hz, failRes]
        · by_cases hm : w.resetToken = resetTok
          · simp [verifyResetToken, hv, htk, hfind, hz, hm, hexp, failRes]
          · simp [verifyResetToken, hv, htk, hfind, hz, hm, failRes]
  · intro hfind hv htk hm
    have hz : ¬ (w.resetToken = "") := by rw [hm]; exact htk
    have hnl : ¬ (w.resetTokenExpireAt < w.resetTokenExpireAt - 1) := by omega
    simp [verifyResetToken, hv, htk, hfind, hz, hm, hnl]

/-- C2 witness: on a concrete record (verify expiry 2000, reset expiry 3000),
both consumptions are rejected at time 3001 and accepted at `expiresAt - 1`. -/
theorem C2_expiry_boundary_witness :
    (findOne [sampleUser] "al@x.com" = some sampleUser ∧
      sampleUser.verifyTokenExpireAt < 3001 ∧
      (verifyAccount "s" 3001 [sampleUser] { token := "vtok-1", email := "al@x.com" }).1.success = false) ∧
    ((verifyAccount "s" (sampleUser.verifyTokenExpireAt - 1) [sampleUser]
        { token := "vtok-1", email := "al@x.com" }).1.success = true) ∧
    (sampleUser.resetTokenExpireAt < 3001 ∧
      (verifyResetToken 3001 [sampleUser] "al@x.com" "rtok-1").1.success = false) ∧
    ((verifyResetToken (sampleUser.resetTokenExpireAt - 1) [sampleUser] "al@x.com" "rtok-1").1.success = true) := by
  have h := C2_expiry_boundary "s" 3001 [sampleUser]
    { token := "vtok-1", email := "al@x.com" } sampleUser "al@x.com" "rtok-1" sampleUser
  exact ⟨⟨by decide, by decide, h.1 (by decide) (by decide)⟩,
    h.2.1 (by decide) (by decide) (by decide) (by decide),
    ⟨by decide, h.2.2.1 (by decide) (by decide)⟩,
    h.2.2.2 (by decide) (by decide) (by decide) (by decide)⟩

/-- Registration against a store that already holds the email: the flow stops
at the duplicate check and returns the store untouched. -/
theorem register_conflict_of_found (hash : String → String) (newId token : String)
    (now : Nat) (db : List UserRecord) (req : RegisterReq) (u : UserRecord)
    (hname : req.name ≠ "") (hemail : req.email ≠ "") (hpass : req.password ≠ "")
    (hfound : findOne db req.email = some u) :
    register hash newId token now db req = (failRes "User already exists", db) := by
  simp [register, hname, hemail, hpass, hfound, failRes]

/-- C5: registering an already-registered email yields the CONFLICT outcome
"User already exists" and leaves the store — in particular every field of the
existing record — unchanged. -/
theorem C5_register_conflict (hash : String → String) (id1 id2 tok1 tok2 : String)
    (now1 now2 : Nat) (db : List UserRecord) (req1 req2 : RegisterReq)
    (hname : req1.name ≠ "") (hemail : req1.email ≠ "") (hpass : req1.password ≠ "")
    (hname2 : req2.name ≠ "") (hpass2 : req2.password ≠ "")
    (hsame : req2.email = req1.email)
    (hnew : findOne db req1.email = none) :
    (register hash id1 tok1 now1 db req1).1.success = true ∧
    register hash id2 tok2 now2 (register hash id1 tok1 now1 db req1).2 req2 =
      (failRes "User already exists", (register hash id1 tok1 now1 db req1).2) := by
  have h1 : register hash id1 tok1 now1 db req1 =
      ({ success := true, message := "", setCookie := none },
       db ++ [{ _id := id1, name := req1.name, email := req1.email,
                password := hash req1.password, verifyToken := tok1,
                verifyTokenExpireAt := now1 + 1000 * 60 * 15,
                isAccountVerified := false, resetToken := "", resetTokenExpireAt := 0 }]) := by
    simp [register, hname, hemail, hpass, hnew]
  have hfound : findOne (register hash id1 tok1 now1 db req1).2 req2.email =
      some { _id := id1, name := req1.name, email := req1.email,
             password := hash req1.password, verifyToken := tok1,
             verifyTokenExpireAt := now1 + 1000 * 60 * 15,
             isAccountVerified := false, resetToken := "", resetTokenExpireAt := 0 } := by
    rw [h1, hsame]
    exact findOne_append_single db req1.email _ hnew rfl
  have hemail2 : req2.email ≠ "" := by rw [hsame]; exact hemail
  exact ⟨by rw [h1], register_conflict_of_found hash id2 tok2 now2 _ req2 _
    hname2 hemail2 hpass2 hfound⟩

/-- C5 witness: registering "al@x.com" into an empty store succeeds, and a
second registration with the same email yields "User already exists" without
touching the store. -/
theorem C5_register_conflict_witness :
    (register (fun p => "h-" ++ p) "id1" "t1" 50 []
        { name := "Al", email := "al@x.com", password := "pw1" }).1.success = true ∧
    register (fun p => "h-" ++ p) "id2" "t2" 60
        (register (fun p => "h-" ++ p) "id1" "t1" 50 []
          { name := "Al", email := "al@x.com", password := "pw1" }).2
        { name := "Bob", email := "al@x.com", password := "pw2" } =
      (failRes "User already exists",
        (register (fun p => "h-" ++ p) "id1" "t1" 50 []
          { name := "Al", email := "al@x.com", password := "pw1" }).2) := by
  exact C5_register_conflict (fun p => "h-" ++ p) "id1" "id2" "t1" "t2" 50 60 []
    { name := "Al", email := "al@x.com", password := "pw1" }
    { name := "Bob", email := "al@x.com", password := "pw2" }
    (by decide) (by decide) (by decide) (by decide) (by decide) rfl rfl

/-- C7: SignIn outcome totality: missing email or password yields the
VALIDATION failure; unknown email yields "Invalid email"; a failing hash
comparison yields "Incorrect password"; otherwise success with a session
cookie `{id: user._id}`. -/
theorem C7_signin_totality (compare : String → String → Bool) (secret : String)
    (db : List UserRecord) (email password : String) :
    ((email = "" ∨ password = "") →
      Signin compare secret db email password = failRes "Email and password are required")
    ∧ (email ≠ "" → password ≠ "" → findOne db email = none →
      Signin compare secret db email password = failRes "Invalid email")
    ∧ (∀ u, email ≠ "" → password ≠ "" → findOne db email = some u →
      compare password u.password = false →
      Signin compare secret db email password = failRes "Incorrect password")
    ∧ (∀ u, email ≠ "" → password ≠ "" → findOne db email = some u →
      compare password u.password = true →
      Signin compare secret db email password =
        { success := true, message := "",
          setCookie := some (jwtSign { id := some u._id, email := none, name := none } secret) }) := by
  refine ⟨?_, ?_, ?_, ?_⟩
  · rintro (he | hp)
    · simp [Signin, he, failRes]
    · simp [Signin, hp, failRes]
  · intro he hp hfind
    simp [Signin, he, hp, hfind, failRes]
  · intro u he hp hfind hcmp
    simp [Signin, he, hp, hfind, hcmp, failRes]
  · intro u he hp hfind hcmp
    simp [Signin, he, hp, hfind, hcmp]

/-- C7 witness: the four SignIn outcomes at concrete inputs: missing
password, unknown email, wrong password, and a successful sign-in. -/
theorem C7_signin_totality_witness :
    Signin (fun p h => h == "h-" ++ p) "s" [sampleUser] "al@x.com" "" =
      failRes "Email and password are required" ∧
    Signin (fun p h => h == "h-" ++ p) "s" [sampleUser] "bob@x.com" "pw1" =
      failRes "Invalid email" ∧
    Signin (fun p h => h == "h-" ++ p) "s" [sampleUser] "al@x.com" "wrong" =
      failRes "Incorrect password" ∧
    Signin (fun p h => h == "hashed-" ++ p) "s" [sampleUser] "al@x.com" "pw1" =
      { success := true, message := "",
        setCookie := some (jwtSign { id := some "64b0c1", email := none, name := none } "s") } := by
  refine ⟨(C7_signin_totality (fun p h => h == "h-" ++ p) "s" [sampleUser] "al@x.com" "").1 (Or.inr rfl),
    (C7_signin_totality (fun p h => h == "h-" ++ p) "s" [sampleUser] "bob@x.com" "pw1").2.1
      (by decide) (by decide) (by decide),
    (C7_signin_totality (fun p h => h == "h-" ++ p) "s" [sampleUser] "al@x.com" "wrong").2.2.1
      sampleUser (by decide) (by decide) (by decide) (by decide),
    (C7_signin_totality (fun p h => h == "hashed-" ++ p) "s" [sampleUser] "al@x.com" "pw1").2.2.2
      sampleUser (by decide) (by decide) (by decide) (by decide)⟩

/-- C8: SignIn never inspects the verification flag: a matching password
yields success and a session cookie even when `isAccountVerified` is false
and a verification token is still pending on the record. -/
theorem C8_signin_ignores_verification (compare : String → String → Bool)
    (secret : String) (db : List UserRecord) (email password : String) (u : UserRecord)
    (hemail : email ≠ "") (hpass : password ≠ "")
    (hfind : findOne db email = some u)
    (hmatch : compare password u.password = true)
    (hunverified : u.isAccountVerified = false)
    (hpending : u.verifyToken ≠ "") :
    (Signin compare secret db email password).success = true ∧
    (Signin compare secret db email password).setCookie =
      some (jwtSign { id := some u._id, email := none, name := none } secret) := by
  constructor
  · simp [Signin, hemail, hpass, hfind, hmatch]
  · simp [Signin, hemail, hpass, hfind, hmatch]

/-- C8 witness: `sampleUser` is unverified with a pending verification token,
yet signing in with the matching password succeeds with a cookie. -/
theorem C8_signin_ignores_verification_witness :
    sampleUser.isAccountVerified = false ∧ sampleUser.verifyToken ≠ "" ∧
    (Signin (fun p h => h == "hashed-" ++ p) "s" [sampleUser] "al@x.com" "pw1").success = true ∧
    (Signin (fun p h => h == "hashed-" ++ p) "s" [sampleUser] "al@x.com" "pw1").setCookie =
      some (jwtSign { id := some "64b0c1", email := none, name := none } "s") := by
  have h := C8_signin_ignores_verification (fun p h => h == "hashed-" ++ p) "s"
    [sampleUser] "al@x.com" "pw1" sampleUser
    (by decide) (by decide) (by decide) (by decide) (by decide) (by decide)
  exact ⟨by decide, by decide, h.1, h.2⟩

/-- C9: Error atomicity: whenever register, verifyAccount, sendResetToken,
verifyResetToken or resetPassword returns a success:false outcome, the user
store is returned unchanged — every validation, not-found, conflict, mismatch
and expiry check occurs before any write. -/
theorem C9_error_atomicity (hash : String → String) (secret newId token : String)
    (now : Nat) (db : List UserRecord) (reqR : RegisterReq) (reqV : VerifyAccountReq)
    (email resetTok rEmail newPassword : String) :
    ((register hash newId token now db reqR).1.success = false →
      (register hash newId token now db reqR).2 = db)
    ∧ ((verifyAccount secret now db reqV).1.success = false →
      (verifyAccount secret now db reqV).2 = db)
    ∧ ((sendResetToken token now db email).1.success = false →
      (sendResetToken token now db email).2 = db)
    ∧ ((verifyResetToken now db email resetTok).1.success = false →
      (verifyResetToken now db email resetTok).2 = db)
    ∧ ((resetPassword hash db rEmail newPassword).1.success = false →
      (resetPassword hash db rEmail newPassword).2 = db) := by
  refine ⟨?_, ?_, ?_, ?_, ?_⟩
  · intro hs
    by_cases hn : reqR.name = ""
    · simp [register, hn]
    · by_cases he : reqR.email = ""
      · simp [register, hn, he]
      · by_cases hp : reqR.password = ""
        · simp [register, hn, he, hp]
        · cases hfind : findOne db reqR.email with
          | some u => simp [register, hn, he, hp, hfind]
          | none => simp [register, hn, he, hp, hfind, failRes] at hs
  · intro hs
    by_cases ht : reqV.token = ""
    · simp [verifyAccount, ht]
    · by_cases he : reqV.email = ""
      · simp [verifyAccount, ht, he]
      · cases hfind : findOne db reqV.email with
        | none => simp [verifyAccount, ht, he, hfind]
        | some u =>
          by_cases hm : u.verifyToken = reqV.token
          · by_cases hexp : u.verifyTokenExpireAt < now
            · simp [verifyAccount, ht, he, hfind, hm, hexp]
            · simp [verifyAccount, ht, he, hfind, hm, hexp, failRes] at hs
          · simp [verifyAccount, ht, he, hfind, hm]
  · intro hs
    by_cases he : email = ""
    · simp [sendResetToken, he]
    · cases hfind : findOne db email with
      | none => simp [sendResetToken, he, hfind]
      | some u => simp [sendResetToken, he, hfind, failRes] at hs
  · intro hs
    by_cases he : email = ""
    · simp [verifyResetToken, he]
    · by_cases ht : resetTok = ""
      · simp [verifyResetToken, he, ht]
      · cases hfind : findOne db email with
        | none => simp [verifyResetToken, he, ht, hfind]
        | some u =>
          by_cases hz : u.resetToken = ""
          · simp [verifyResetToken, he, ht, hfind, hz]
          · by_cases hm : u.resetToken = resetTok
            · by_cases hexp : u.resetTokenExpireAt < now
              · simp [verifyResetToken, he, ht, hfind, hz, hm, hexp]
              · simp [verifyResetToken, he, ht, hfind, hz, hm, hexp, failRes] at hs
            · simp [verifyResetToken, he, ht, hfind, hz, hm]
  · intro hs
    by_cases hp : newPassword = ""
    · simp [resetPassword, hp]
    · cases hfind : findOne db rEmail with
      | none => simp [resetPassword, hp, hfind]
      | some u => simp [resetPassword, hp, hfind, failRes] at hs

/-- C9 witness: five concrete failing requests — duplicate registration,
wrong verification token, reset request for an unknown email, wrong reset
token, and an empty new password — each leave the store `[sampleUser]`
untouched. -/
theorem C9_error_atomicity_witness :
    ((register (fun p => "h-" ++ p) "id9" "t9" 10 [sampleUser]
        { name := "Zed", email := "al@x.com", password := "pw" }).1.success = false ∧
      (register (fun p => "h-" ++ p) "id9" "t9" 10 [sampleUser]
        { name := "Zed", email := "al@x.com", password := "pw" }).2 = [sampleUser]) ∧
    ((verifyAccount "s" 10 [sampleUser] { token := "bad", email := "al@x.com" }).1.success = false ∧
      (verifyAccount "s" 10 [sampleUser] { token := "bad", email := "al@x.com" }).2 = [sampleUser]) ∧
    ((sendResetToken "t9" 10 [sampleUser] "zip@x.com").1.success = false ∧
      (sendResetToken "t9" 10 [sampleUser] "zip@x.com").2 = [sampleUser]) ∧
    ((verifyResetToken 10 [sampleUser] "zip@x.com" "bad").1.success = false ∧
      (verifyResetToken 10 [sampleUser] "zip@x.com" "bad").2 = [sampleUser]) ∧
    ((resetPassword (fun p => "h-" ++ p) [sampleUser] "al@x.com" "").1.success = false ∧
      (resetPassword (fun p => "h-" ++ p) [sampleUser] "al@x.com" "").2 = [sampleUser]) := by
  have h := C9_error_atomicity (fun p => "h-" ++ p) "s" "id9" "t9" 10 [sampleUser]
    { name := "Zed", email := "al@x.com", password := "pw" }
    { token := "bad", email := "al@x.com" } "zip@x.com" "bad" "al@x.com" ""
  exact ⟨⟨by decide, h.1 (by decide)⟩, ⟨by decide, h.2.1 (by decide)⟩,
    ⟨by decide, h.2.2.1 (by decide)⟩, ⟨by decide, h.2.2.2.1 (by decide)⟩,
    ⟨by decide, h.2.2.2.2 (by decide)⟩⟩

/-- C10: reissuing a reset token overwrites the previous one: after two
RequestPasswordReset calls the stored reset token and expiry are those of the
second issuance; VerifyResetToken then succeeds with the second token and
yields the "Invalid Link." (INVALID_LINK) outcome for the first. -/
theorem C10_reset_reissue_overwrites (tok1 tok2 : String) (now1 now2 now : Nat)
    (db : List UserRecord) (email : String) (u : UserRecord)
    (hfind : findOne db email = some u) (hemail : email ≠ "")
    (h1 : tok1 ≠ "") (h2 : tok2 ≠ "") (hne : tok1 ≠ tok2)
    (hnow : ¬ (now2 + 1000 * 60 * 15 < now)) :
    (∃ w, findOne (sendResetToken tok2 now2 (sendResetToken tok1 now1 db email).2 email).2 email = some w ∧
      w.resetToken = tok2 ∧ w.resetTokenExpireAt = now2 + 1000 * 60 * 15) ∧
    (verifyResetToken now (sendResetToken tok2 now2 (sendResetToken tok1 now1 db email).2 email).2 email tok2).1.success = true ∧
    verifyResetToken now (sendResetToken tok2 now2 (sendResetToken tok1 now1 db email).2 email).2 email tok1 =
      (failRes "Invalid Link.", (sendResetToken tok2 now2 (sendResetToken tok1 now1 db email).2 email).2) := by
  have hdb1 : (sendResetToken tok1 now1 db email).2 =
      updateOne db email (fun v =>
        { v with resetToken := tok1, resetTokenExpireAt := now1 + 1000 * 60 * 15 }) := by
    simp [sendResetToken, hemail, hfind]
  have hfu1 : findOne (updateOne db email (fun v =>
        { v with resetToken := tok1, resetTokenExpireAt := now1 + 1000 * 60 * 15 })) email =
      some { u with resetToken := tok1, resetTokenExpireAt := now1 + 1000 * 60 * 15 } :=
    findOne_updateOne_eq email (fun v =>
      { v with resetToken := tok1, resetTokenExpireAt := now1 + 1000 * 60 * 15 })
      (fun v => rfl) db u hfind
  have hdb2 : (sendResetToken tok2 now2 (sendResetToken tok1 now1 db email).2 email).2 =
      updateOne (updateOne db email (fun v =>
          { v with resetToken := tok1, resetTokenExpireAt := now1 + 1000 * 60 * 15 })) email
        (fun v => { v with resetToken := tok2, resetTokenExpireAt := now2 + 1000 * 60 * 15 }) := by
    rw [hdb1]
    simp [sendResetToken, hemail, hfu1]
  have hfu2 : findOne (updateOne (updateOne db email (fun v =>
        { v with resetToken := tok1, resetTokenExpireAt := now1 + 1000 * 60 * 15 })) email
        (fun v => { v with resetToken := tok2, resetTokenExpireAt := now2 + 1000 * 60 * 15 })) email =
      some { u with resetToken := tok2, resetTokenExpireAt := now2 + 1000 * 60 * 15 } :=
    findOne_updateOne_eq email (fun v =>
      { v with resetToken := tok2, resetTokenExpireAt := now2 + 1000 * 60 * 15 })
      (fun v => rfl)
      (updateOne db email (fun v =>
        { v with resetToken := tok1, resetTokenExpireAt := now1 + 1000 * 60 * 15 }))
      { u with resetToken := tok1, resetTokenExpireAt := now1 + 1000 * 60 * 15 } hfu1
  refine ⟨⟨_, by rw [hdb2]; exact hfu2, rfl, rfl⟩, ?_, ?_⟩
  · rw [hdb2]
    simp [verifyResetToken, hemail, h2, hfu2, hnow]
  · rw [hdb2]
    have hne' : ¬ (tok2 = tok1) := fun hh => hne hh.symm
    simp [verifyResetToken, hemail, h1, h2, hfu2, hne', failRes]

/-- C10 witness: issuing reset tokens "ra" then "rb" for `sampleUser` leaves
"rb" stored with the second expiry; verification succeeds with "rb" and fails
with "Invalid Link." for "ra". -/
theorem C10_reset_reissue_overwrites_witness :
    (∃ w, findOne (sendResetToken "rb" 200 (sendResetToken "ra" 100 [sampleUser] "al@x.com").2 "al@x.com").2 "al@x.com" = some w ∧
      w.resetToken = "rb" ∧ w.resetTokenExpireAt = 200 + 1000 * 60 * 15) ∧
    (verifyResetToken 300 (sendResetToken "rb" 200 (sendResetToken "ra" 100 [sampleUser] "al@x.com").2 "al@x.com").2 "al@x.com" "rb").1.success = true ∧
    verifyResetToken 300 (sendResetToken "rb" 200 (sendResetToken "ra" 100 [sampleUser] "al@x.com").2 "al@x.com").2 "al@x.com" "ra" =
      (failRes "Invalid Link.", (sendResetToken "rb" 200 (sendResetToken "ra" 100 [sampleUser] "al@x.com").2 "al@x.com").2) := by
  exact C10_reset_reissue_overwrites "ra" "rb" 100 200 300 [sampleUser] "al@x.com" sampleUser
    (by decide) (by decide) (by decide) (by decide) (by decide) (by decide)

/-- The record `completeLogin` inserts for a previously-unknown email. -/
def oauthNewUser (newId : String) (profile : OAuthProfile) : UserRecord :=
  { _id := newId
    email := profile.email
    name := profile.name
    password := ""
    verifyToken := ""
    verifyTokenExpireAt := 0
    isAccountVerified := true
    resetToken := ""
    resetTokenExpireAt := 0 }

/-- C6: OAuth completion is idempotent for account creation: with a
previously-unknown email, the first CompleteLogin creates exactly one record
and returns success with a session cookie; the second call takes the
existing-user branch ("User logged in successfully"), mutates nothing, and
returns the same success and cookie. -/
theorem C6_oauth_idempotent (secret accessTok1 accessTok2 newId1 newId2 : String)
    (profile : OAuthProfile) (db : List UserRecord)
    (hnew : findOne db profile.email = none) :
    completeLogin secret (Except.ok accessTok1) (fun _ => Except.ok profile) db newId1 =
      Except.ok ({ success := true, message := "User registered successfully",
                   setCookie := some (jwtSign { id := none, email := some profile.email,
                                                name := some profile.name } secret) },
                 db ++ [oauthNewUser newId1 profile]) ∧
    ((db ++ [oauthNewUser newId1 profile]).filter (fun v => v.email == profile.email)).length = 1 ∧
    completeLogin secret (Except.ok accessTok2) (fun _ => Except.ok profile)
        (db ++ [oauthNewUser newId1 profile]) newId2 =
      Except.ok ({ success := true, message := "User logged in successfully",
                   setCookie := some (jwtSign { id := none, email := some profile.email,
                                                name := some profile.name } secret) },
                 db ++ [oauthNewUser newId1 profile]) := by
  have hfind1 : findOne (db ++ [oauthNewUser newId1 profile]) profile.email =
      some (oauthNewUser newId1 profile) :=
    findOne_append_single db profile.email _ hnew rfl
  refine ⟨by simp [completeLogin, hnew, oauthNewUser], ?_, ?_⟩
  · rw [filter_email_append_single db profile.email _ hnew rfl]
    rfl
  · simp [completeLogin, hfind1]

/-- C6 witness: two OAuth completions for the fresh email "n@x.com" against
the store `[sampleUser]`: one record is created, the second call logs in
against it without mutation. -/
theorem C6_oauth_idempotent_witness :
    completeLogin "s" (Except.ok "at1") (fun _ => Except.ok { email := "n@x.com", name := "N" }) [sampleUser] "g1" =
      Except.ok ({ success := true, message := "User registered successfully",
                   setCookie := some (jwtSign { id := none, email := some "n@x.com",
                                                name := some "N" } "s") },
                 [sampleUser] ++ [oauthNewUser "g1" { email := "n@x.com", name := "N" }]) ∧
    (([sampleUser] ++ [oauthNewUser "g1" { email := "n@x.com", name := "N" }]).filter
        (fun v => v.email == "n@x.com")).length = 1 ∧
    completeLogin "s" (Except.ok "at2") (fun _ => Except.ok { email := "n@x.com", name := "N" })
        ([sampleUser] ++ [oauthNewUser "g1" { email := "n@x.com", name := "N" }]) "g2" =
      Except.ok ({ success := true, message := "User logged in successfully",
                   setCookie := some (jwtSign { id := none, email := some "n@x.com",
                                                name := some "N" } "s") },
                 [sampleUser] ++ [oauthNewUser "g1" { email := "n@x.com", name := "N" }]) := by
  exact C6_oauth_idempotent "s" "at1" "at2" "g1" "g2"
    { email := "n@x.com", name := "N" } [sampleUser] (by decide)

/-- C3 counterexample: with a concrete failing token exchange, the OAuth
CompleteLogin flow does not recover the failure at the flow boundary: it
yields no response at all — in particular no success:false UPSTREAM_ERROR
outcome — because the handler has no try/catch and the error propagates. -/
theorem C3_upstream_error_not_recovered_counterexample :
    completeLogin "s" (Except.error "Request failed with status code 400")
        (fun _ => Except.ok { email := "al@x.com", name := "Al" }) [] "u1" =
      Except.error "Request failed with status code 400" ∧
    (completeLogin "s" (Except.error "Request failed with status code 400")
        (fun _ => Except.ok { email := "al@x.com", name := "Al" }) [] "u1").toOption = none :=
  ⟨rfl, rfl⟩

/-- C3 amended: the Auth-controller flows return their failures as
success:false responses, but a non-success response from the identity
provider during OAuth CompleteLogin is NOT recovered at the flow boundary:
whether the token exchange or the profile fetch fails, the error propagates
out of the flow unchanged and no success:false / UPSTREAM_ERROR outcome is
produced. -/
theorem C3_oauth_upstream_error_propagates (secret e accessToken : String)
    (fetchProfile : String → Except String OAuthProfile)
    (db : List UserRecord) (newId : String) :
    completeLogin secret (Except.error e) fetchProfile db newId = Except.error e ∧
    completeLogin secret (Except.ok accessToken) (fun _ => Except.error e) db newId =
      Except.error e :=
  ⟨rfl, rfl⟩

/-- C4 counterexample: a session cookie issued by OAuth CompleteLogin (signed
payload `{email, name}`, no `id` claim) is rejected by the `userAuth`
session validator, so an OAuth-issued session does not pass the
IsAuthenticated check. -/
theorem C4_oauth_session_fails_auth_counterexample :
    completeLogin "s" (Except.ok "at") (fun _ => Except.ok { email := "al@x.com", name := "Al" }) [] "u1" =
      Except.ok ({ success := true, message := "User registered successfully",
                   setCookie := some (jwtSign { id := none, email := some "al@x.com",
                                                name := some "Al" } "s") },
                 [oauthNewUser "u1" { email := "al@x.com", name := "Al" }]) ∧
    userAuth (some (jwtSign { id := none, email := some "al@x.com", name := some "Al" } "s")) "s" =
      AuthOutcome.reject "Not Authorized Login Again." := by
  constructor
  · rfl
  · rfl

/-- C4 amended: session tokens issued by SignIn and VerifyAccount encode the
user's stable id as `{id: user._id}` and pass the `userAuth` validator,
which resolves that id; session tokens issued by OAuth CompleteLogin encode
only `{email, name}` with no id claim, and `userAuth` rejects them. -/
theorem C4_session_subject_amended (compare : String → String → Bool)
    (secret : String) (db : List UserRecord) (email password : String)
    (now : Nat) (req : VerifyAccountReq) (accessToken newId : String)
    (profile : OAuthProfile) :
    (∀ u, email ≠ "" → password ≠ "" → findOne db email = some u →
      compare password u.password = true → u._id ≠ "" →
      (Signin compare secret db email password).setCookie =
        some (jwtSign { id := some u._id, email := none, name := none } secret) ∧
      userAuth (some (jwtSign { id := some u._id, email := none, name := none } secret)) secret =
        AuthOutcome.next u._id)
    ∧ (∀ u, (verifyAccount secret now db req).1.success = true →
      findOne db req.email = some u → u._id ≠ "" →
      (verifyAccount secret now db req).1.setCookie =
        some (jwtSign { id := some u._id, email := none, name := none } secret) ∧
      userAuth (some (jwtSign { id := some u._id, email := none, name := none } secret)) secret =
        AuthOutcome.next u._id)
    ∧ ((completeLogin secret (Except.ok accessToken) (fun _ => Except.ok profile) db newId).toOption.map
        (fun p => p.1.setCookie) =
        some (some (jwtSign { id := none, email := some profile.email, name := some profile.name } secret)) ∧
      userAuth (some (jwtSign { id := none, email := some profile.email, name := some profile.name } secret)) secret =
        AuthOutcome.reject "Not Authorized Login Again.") := by
  refine ⟨?_, ?_, ?_, ?_⟩
  · intro u he hp hfind hcmp hid
    constructor
    · simp [Signin, he, hp, hfind, hcmp]
    · simp [userAuth, jwtVerify, jwtSign, hid]
  · intro u hs hfindu hid
    by_cases ht : req.token = ""
    · simp [verifyAccount, ht, failRes] at hs
    · by_cases he : req.email = ""
      · simp [verifyAccount, ht, he, failRes] at hs
      · by_cases hm : u.verifyToken = req.token
        · by_cases hexp : u.verifyTokenExpireAt < now
          · simp [verifyAccount, ht, he, hfindu, hm, hexp, failRes] at hs
          · constructor
            · simp [verifyAccount, ht, he, hfindu, hm, hexp]
            · simp [userAuth, jwtVerify, jwtSign, hid]
        · simp [verifyAccount, ht, he, hfindu, hm, failRes] at hs
  · cases hfind : findOne db profile.email with
    | none => simp [completeLogin, hfind, Except.toOption]
    | some u => simp [completeLogin, hfind, Except.toOption]
  · simp [userAuth, jwtVerify, jwtSign]

/-- C4 amended witness: concrete sign-in and account-verification sessions
for `sampleUser` carry id "64b0c1" and pass `userAuth`; a concrete OAuth
session carries no id and is rejected. -/
theorem C4_session_subject_amended_witness :
    ((Signin (fun p h => h == "hashed-" ++ p) "s" [sampleUser] "al@x.com" "pw1").setCookie =
        some (jwtSign { id := some "64b0c1", email := none, name := none } "s") ∧
      userAuth (some (jwtSign { id := some "64b0c1", email := none, name := none } "s")) "s" =
        AuthOutcome.next "64b0c1") ∧
    ((verifyAccount "s" 1000 [sampleUser] { token := "vtok-1", email := "al@x.com" }).1.success = true ∧
      (verifyAccount "s" 1000 [sampleUser] { token := "vtok-1", email := "al@x.com" }).1.setCookie =
        some (jwtSign { id := some "64b0c1", email := none, name := none } "s")) ∧
    ((completeLogin "s" (Except.ok "at") (fun _ => Except.ok { email := "n@x.com", name := "N" })
        [sampleUser] "g1").toOption.map (fun p => p.1.setCookie) =
        some (some (jwtSign { id := none, email := some "n@x.com", name := some "N" } "s")) ∧
      userAuth (some (jwtSign { id := none, email := some "n@x.com", name := some "N" } "s")) "s" =
        AuthOutcome.reject "Not Authorized Login Again.") := by
  have h := C4_session_subject_amended (fun p h => h == "hashed-" ++ p) "s" [sampleUser]
    "al@x.com" "pw1" 1000 { token := "vtok-1", email := "al@x.com" } "at" "g1"
    { email := "n@x.com", name := "N" }
  have h1 := h.1 sampleUser (by decide) (by decide) (by decide) (by decide) (by decide)
  have h2 := h.2.1 sampleUser (by decide) (by decide) (by decide)
  exact ⟨⟨h1.1, h1.2⟩, ⟨by decide, h2.1⟩, h.2.2⟩

end AuthBackend
